import Mathlib

/-!
Shallow embedding of the Task Lifecycle & Ledger Engine
(src/services.py, src/models.py).

The relational store is a record of lists; `db.get(Model, id)` becomes
`List.find?` on the id, an ORM in-place update becomes a positional
`List.map` replacing the matching row, `db.add` appends a row and
auto-increment primary keys are explicit counters. Python's injected
clock (`datetime.now()` / `date.today()`) is an explicit argument.
Python exceptions become `Except ServiceError`.
-/

namespace TaskEngine

/-- `InstanceStatus` enum from models.py. -/
inductive InstanceStatus where
  | doing
  | review
  | done
deriving Repr, DecidableEq

/-- `LedgerReason` enum from models.py. -/
inductive LedgerReason where
  | task_approved
  | rent_paid
  | manual_adjustment
deriving Repr, DecidableEq

/-- Calendar date (Python `datetime.date`): only `.day` and whole-date
equality are used by the engine. -/
structure Date where
  year : Nat
  month : Nat
  day : Nat
deriving Repr, DecidableEq

/-- `TaskTemplate` row (models.py). -/
structure TaskTemplate where
  id : Nat
  title : String
  default_points : Int
  help_text : String
  available : Bool
  sort_order : Int
  created_at : Nat
deriving Repr, DecidableEq

/-- `TaskInstance` row (models.py). The `sort_order` column default is 0. -/
structure TaskInstance where
  id : Nat
  template_id : Nat
  assigned_kid_id : Nat
  points_awarded : Int
  details : String
  status : InstanceStatus
  sort_order : Int
  created_at : Nat
  approved_at : Option Nat
  archived : Bool
deriving Repr, DecidableEq

/-- `PointsLedger` row (models.py). -/
structure PointsLedger where
  id : Nat
  kid_id : Nat
  amount : Int
  reason : LedgerReason
  instance_id : Option Nat
  note : String
deriving Repr, DecidableEq

/-- `RentPolicy` row (models.py). -/
structure RentPolicy where
  id : Nat
  kid_id : Nat
  rent_amount : Int
  rent_day_of_month : Nat
  last_charged_on : Option Date
deriving Repr, DecidableEq

/-- The relational store visible to services.py, with auto-increment
counters for the primary keys the engine assigns. -/
structure DB where
  templates : List TaskTemplate
  instances : List TaskInstance
  ledger : List PointsLedger
  rent_policies : List RentPolicy
  next_instance_id : Nat
  next_policy_id : Nat
  next_ledger_id : Nat
deriving Repr, DecidableEq

/-- Service-layer failures: each `raise ValueError(...)` site in services.py. -/
inductive ServiceError where
  | templateNotFound
  | templateUnavailable
  | instanceNotFound
  | illegalTransition (src : InstanceStatus) (target : InstanceStatus)
  | instanceImmutable
  | notInReview
  | notCollectible
deriving Repr, DecidableEq

/-- `db.get(TaskInstance, instance_id)`. -/
def DB.getInstance (db : DB) (iid : Nat) : Option TaskInstance :=
  db.instances.find? (fun i => i.id == iid)

/-- `db.get(TaskTemplate, template_id)`. -/
def DB.getTemplate (db : DB) (tid : Nat) : Option TaskTemplate :=
  db.templates.find? (fun t => t.id == tid)

/-- ORM in-place row update: replace every instance row carrying the new
row's id. -/
def DB.setInstance (db : DB) (inst : TaskInstance) : DB :=
  { db with instances := db.instances.map (fun i => if i.id == inst.id then inst else i) }

/-- ORM in-place row update for templates. -/
def DB.setTemplate (db : DB) (tmpl : TaskTemplate) : DB :=
  { db with templates := db.templates.map (fun t => if t.id == tmpl.id then tmpl else t) }

/-- services.py `kid_balance`: sum of ledger amounts for the child. -/
def kid_balance (db : DB) (kid_id : Nat) : Int :=
  (db.ledger.filter (fun e => e.kid_id == kid_id)).foldl (fun s e => s + e.amount) 0

/-- services.py `ensure_rent_policy`: fetch the child's policy or lazily
create it with defaults (amount 50, day-of-month 1). -/
def ensure_rent_policy (db : DB) (kid_id : Nat) : DB × RentPolicy :=
  match db.rent_policies.find? (fun rp => rp.kid_id == kid_id) with
  | some rp => (db, rp)
  | none =>
    let rp : RentPolicy :=
      { id := db.next_policy_id
        kid_id := kid_id
        rent_amount := 50
        rent_day_of_month := 1
        last_charged_on := none }
    ({ db with
        rent_policies := db.rent_policies ++ [rp]
        next_policy_id := db.next_policy_id + 1 }, rp)

/-- services.py `create_instance_from_template`. -/
def create_instance_from_template (db : DB) (template_id : Nat) (kid_id : Nat)
    (now : Nat) : Except ServiceError (DB × TaskInstance) :=
  match db.getTemplate template_id with
  | none => .error .templateNotFound
  | some tmpl =>
    if tmpl.available then
      let inst : TaskInstance :=
        { id := db.next_instance_id
          template_id := tmpl.id
          assigned_kid_id := kid_id
          points_awarded := tmpl.default_points
          details := ""
          status := .doing
          sort_order := 0
          created_at := now
          approved_at := none
          archived := false }
      let db1 : DB :=
        { db with
            instances := db.instances ++ [inst]
            next_instance_id := db.next_instance_id + 1 }
      .ok (db1.setTemplate { tmpl with available := false }, inst)
    else
      .error .templateUnavailable

/-- The `allowed` transition table of services.py `move_instance`. -/
def allowed_moves (s : InstanceStatus) : List InstanceStatus :=
  match s with
  | .doing => [.review]
  | .review => [.doing]
  | .done => []

/-- services.py `move_instance`. -/
def move_instance (db : DB) (instance_id : Nat) (new_status : InstanceStatus) :
    Except ServiceError DB :=
  match db.getInstance instance_id with
  | none => .error .instanceNotFound
  | some inst =>
    if new_status ∈ allowed_moves inst.status then
      .ok (db.setInstance { inst with status := new_status })
    else
      .error (.illegalTransition inst.status new_status)

/-- services.py `update_instance_details`: truncates to 1000 characters. -/
def update_instance_details (db : DB) (instance_id : Nat) (details : String) :
    Except ServiceError DB :=
  match db.getInstance instance_id with
  | none => .error .instanceNotFound
  | some inst =>
    if inst.status = .done then
      .error .instanceImmutable
    else
      .ok (db.setInstance { inst with details := details.take 1000 })

/-- services.py `approve_instance`: done + approval timestamp + archived
reset, then re-enable the originating template when it is unavailable.
No ledger write. -/
def approve_instance (db : DB) (instance_id : Nat) (now : Nat) :
    Except ServiceError DB :=
  match db.getInstance instance_id with
  | none => .error .instanceNotFound
  | some inst =>
    if inst.status = .review then
      let db1 := db.setInstance
        { inst with status := .done, approved_at := some now, archived := false }
      match db1.getTemplate inst.template_id with
      | some tmpl =>
        if tmpl.available then .ok db1
        else .ok (db1.setTemplate { tmpl with available := true })
      | none => .ok db1
    else
      .error .notInReview

/-- services.py `reject_instance`. -/
def reject_instance (db : DB) (instance_id : Nat) : Except ServiceError DB :=
  match db.getInstance instance_id with
  | none => .error .instanceNotFound
  | some inst =>
    if inst.status = .review then
      .ok (db.setInstance { inst with status := .doing })
    else
      .error .notInReview

/-- The ledger row appended by `collect_instance`: the note embeds the
originating template's title (SQLAlchemy relationship `inst.template`). -/
def collect_entry (db : DB) (inst : TaskInstance) : PointsLedger :=
  { id := db.next_ledger_id
    kid_id := inst.assigned_kid_id
    amount := inst.points_awarded
    reason := .task_approved
    instance_id := some inst.id
    note := "Collected: " ++ (((db.getTemplate inst.template_id).map TaskTemplate.title).getD "") }

/-- services.py `collect_instance`: archive a Done instance and award its
points exactly once; a second call on an archived instance is a no-op. -/
def collect_instance (db : DB) (instance_id : Nat) : Except ServiceError DB :=
  match db.getInstance instance_id with
  | none => .error .instanceNotFound
  | some inst =>
    if inst.status = .done then
      if inst.archived then
        .ok db
      else
        let db1 := db.setInstance { inst with archived := true }
        .ok { db1 with
                ledger := db1.ledger ++ [collect_entry db inst]
                next_ledger_id := db1.next_ledger_id + 1 }
    else
      .error .notCollectible

/-- services.py `refresh_pool`: set every template available. -/
def refresh_pool (db : DB) : DB :=
  { db with templates := db.templates.map (fun t => { t with available := true }) }

/-- The ledger row appended by `charge_rent_if_due`. -/
def rent_entry (db : DB) (kid_id : Nat) (rp : RentPolicy) : PointsLedger :=
  { id := db.next_ledger_id
    kid_id := kid_id
    amount := -(abs rp.rent_amount)
    reason := .rent_paid
    instance_id := none
    note := "Monthly rent (day " ++ toString rp.rent_day_of_month ++ ")" }

/-- services.py `charge_rent_if_due`: returns the updated store and the
`charged` flag. -/
def charge_rent_if_due (db : DB) (kid_id : Nat) (today : Date) : DB × Bool :=
  let p := ensure_rent_policy db kid_id
  let db1 := p.1
  let rp := p.2
  if today.day ≠ rp.rent_day_of_month then
    (db1, false)
  else if rp.last_charged_on = some today then
    (db1, false)
  else
    ({ db1 with
        ledger := db1.ledger ++ [rent_entry db1 kid_id rp]
        next_ledger_id := db1.next_ledger_id + 1
        rent_policies := db1.rent_policies.map
          (fun q => if q.id == rp.id then { rp with last_charged_on := some today } else q) },
     true)

/-- Python truthiness of `filter_kid_id` in `set_column_order`:
`if filter_kid_id:` skips the child restriction for `None` and for `0`. -/
def kid_filter_passes (filter_kid_id : Option Nat) (inst : TaskInstance) : Bool :=
  match filter_kid_id with
  | none => true
  | some k => if k == 0 then true else inst.assigned_kid_id == k

/-- Index assigned by `set_column_order`'s write loop: the LAST position
of the id in the ordered list (later enumeration steps overwrite). -/
def assigned_idx : List Nat → Nat → Option Nat
  | [], _ => none
  | x :: t, iid =>
    match assigned_idx t iid with
    | some j => some (j + 1)
    | none => if x == iid then some 0 else none

/-- services.py `set_column_order`. -/
def set_column_order (db : DB) (status : InstanceStatus)
    (ordered_instance_ids : List Nat) (filter_kid_id : Option Nat) : DB :=
  if ordered_instance_ids.isEmpty then db
  else
    { db with instances := db.instances.map (fun inst =>
        if inst.status = status ∧ kid_filter_passes filter_kid_id inst = true then
          match assigned_idx ordered_instance_ids inst.id with
          | some idx => { inst with sort_order := (idx : Int) }
          | none => inst
        else inst) }

/-! ### Generic lemmas about row lookup after an in-place row update -/

/-- After an ORM-style in-place update (map replacing rows whose id is `c`
by `b`), a `find?` keyed on `keyOf = k` that found `a` before now finds `b`,
provided `a`'s id is `c` and `b` still carries key `k`. -/
theorem find?_update_generic {α : Type} (keyOf idOf : α → Nat) (k c : Nat)
    (l : List α) (a b : α)
    (h : l.find? (fun x => keyOf x == k) = some a)
    (hc : idOf a = c)
    (hb : keyOf b = k) :
    (l.map (fun x => if idOf x == c then b else x)).find?
      (fun x => keyOf x == k) = some b := by
  induction l with
  | nil => simp at h
  | cons x t ih =>
    by_cases hx : (keyOf x == k) = true
    · simp only [List.find?, hx] at h
      injection h with h1
      subst h1
      have hxc : (idOf x == c) = true := by simp [hc]
      simp [List.find?, List.map_cons, hxc, hb]
    · have hx2 : (keyOf x == k) = false := by simpa using hx
      simp only [List.find?, hx2] at h
      simp only [List.map_cons, List.find?]
      by_cases hxc : (idOf x == c) = true
      · simp [hxc, hb]
      · have hxc2 : (idOf x == c) = false := by simpa using hxc
        simp only [hxc2, Bool.false_eq_true, if_false, hx2]
        exact ih h

/-- A found row is a member of the list and satisfies the predicate. -/
theorem getInstance_id (db : DB) (iid : Nat) (inst : TaskInstance)
    (h : db.getInstance iid = some inst) : inst.id = iid := by
  have := List.find?_some h
  simpa using this

theorem getInstance_mem (db : DB) (iid : Nat) (inst : TaskInstance)
    (h : db.getInstance iid = some inst) : inst ∈ db.instances :=
  List.mem_of_find?_eq_some h

theorem getTemplate_id (db : DB) (tid : Nat) (tmpl : TaskTemplate)
    (h : db.getTemplate tid = some tmpl) : tmpl.id = tid := by
  have := List.find?_some h
  simpa using this

/-- `setInstance` leaves every non-instance table and counter unchanged. -/
theorem setInstance_frame (db : DB) (inst : TaskInstance) :
    (db.setInstance inst).templates = db.templates ∧
    (db.setInstance inst).ledger = db.ledger ∧
    (db.setInstance inst).rent_policies = db.rent_policies ∧
    (db.setInstance inst).next_instance_id = db.next_instance_id ∧
    (db.setInstance inst).next_policy_id = db.next_policy_id ∧
    (db.setInstance inst).next_ledger_id = db.next_ledger_id :=
  ⟨rfl, rfl, rfl, rfl, rfl, rfl⟩

/-- Updating an instance row found at key `iid` by a row with the same id:
the subsequent lookup returns the new row. -/
theorem getInstance_setInstance (db : DB) (iid : Nat) (inst inst' : TaskInstance)
    (h : db.getInstance iid = some inst) (hid : inst'.id = iid) :
    (db.setInstance inst').getInstance iid = some inst' := by
  have ha : inst.id = iid := getInstance_id db iid inst h
  exact find?_update_generic TaskInstance.id TaskInstance.id iid inst'.id
    db.instances inst inst' h (ha.trans hid.symm) hid

/-- Updating a template row found at key `tid` by a row with the same id:
the subsequent lookup returns the new row. -/
theorem getTemplate_setTemplate (db : DB) (tid : Nat) (tmpl tmpl' : TaskTemplate)
    (h : db.getTemplate tid = some tmpl) (hid : tmpl'.id = tid) :
    (db.setTemplate tmpl').getTemplate tid = some tmpl' := by
  have ha : tmpl.id = tid := getTemplate_id db tid tmpl h
  exact find?_update_generic TaskTemplate.id TaskTemplate.id tid tmpl'.id
    db.templates tmpl tmpl' h (ha.trans hid.symm) hid

/-- Template lookups see through instance-row updates. -/
theorem getTemplate_setInstance (db : DB) (i : TaskInstance) (tid : Nat) :
    (db.setInstance i).getTemplate tid = db.getTemplate tid := rfl

/-- Instance lookups see through template-row updates. -/
theorem getInstance_setTemplate (db : DB) (t : TaskTemplate) (iid : Nat) :
    (db.setTemplate t).getInstance iid = db.getInstance iid := rfl

/-! ### Shared sample rows for witnesses -/

def tmplW : TaskTemplate :=
  { id := 1, title := "Make bed", default_points := 5, help_text := "",
    available := true, sort_order := 10, created_at := 0 }

def instW : TaskInstance :=
  { id := 1, template_id := 1, assigned_kid_id := 7, points_awarded := 5,
    details := "", status := .doing, sort_order := 0, created_at := 0,
    approved_at := none, archived := false }

def dbW : DB :=
  { templates := [tmplW], instances := [instW], ledger := [],
    rent_policies := [], next_instance_id := 2, next_policy_id := 1,
    next_ledger_id := 1 }

/-! ### C2: the move transition table -/

/-- C2: for an existing instance, `move_instance` succeeds exactly for the
pairs (doing → review) and (review → doing), setting the status to the
requested one; every other pair fails with `IllegalTransition` naming the
source and the attempted target (leaving the store untouched, since an
error carries no new store). -/
theorem move_transition_table (db : DB) (iid : Nat) (inst : TaskInstance)
    (hfind : db.getInstance iid = some inst) (target : InstanceStatus) :
    ((∃ db2, move_instance db iid target = .ok db2) ↔
      ((inst.status = .doing ∧ target = .review) ∨
       (inst.status = .review ∧ target = .doing))) ∧
    (((inst.status = .doing ∧ target = .review) ∨
      (inst.status = .review ∧ target = .doing)) →
      move_instance db iid target =
        .ok (db.setInstance { inst with status := target })) ∧
    (¬((inst.status = .doing ∧ target = .review) ∨
       (inst.status = .review ∧ target = .doing)) →
      move_instance db iid target =
        .error (.illegalTransition inst.status target)) := by
  unfold move_instance
  rw [hfind]
  cases hs : inst.status <;> cases target <;>
    simp [allowed_moves, hs]

/-- Witness for C2 at a concrete store: moving the sample doing-instance
to review succeeds with the expected updated store. -/
theorem move_transition_table_witness :
    move_instance dbW 1 .review =
      .ok (dbW.setInstance { instW with status := .review }) :=
  (move_transition_table dbW 1 instW rfl .review).2.1 (Or.inl ⟨rfl, rfl⟩)

/-! ### C8: details update gate -/

/-- C8: for an existing instance, `update_instance_details` fails with
`InstanceImmutable` exactly when the instance's status is done; otherwise
it replaces `details` by the given text truncated to 1000 characters and
changes nothing else of the row. -/
theorem update_details_spec (db : DB) (iid : Nat) (inst : TaskInstance)
    (s : String)
    (hfind : db.getInstance iid = some inst) :
    (update_instance_details db iid s = .error .instanceImmutable ↔
      inst.status = .done) ∧
    (inst.status ≠ .done →
      update_instance_details db iid s =
        .ok (db.setInstance { inst with details := s.take 1000 })) := by
  unfold update_instance_details
  rw [hfind]
  by_cases hs : inst.status = .done <;> simp [hs]

/-- Witness for C8 at a concrete store: editing the sample doing-instance
replaces its details with the truncated text. -/
theorem update_details_spec_witness :
    update_instance_details dbW 1 "sweep" =
      .ok (dbW.setInstance { instW with details := String.take "sweep" 1000 }) :=
  (update_details_spec dbW 1 instW "sweep" rfl).2 (by decide)

/-! ### C10: a child filter of 0 is no filter -/

/-- C10: `set_column_order` applies the child restriction only when the
filter value is truthy in Python's sense, so a filter of `0` behaves
exactly like passing no filter at all. -/
theorem set_column_order_zero_filter (db : DB) (st : InstanceStatus)
    (ids : List Nat) :
    set_column_order db st ids (some 0) = set_column_order db st ids none := by
  unfold set_column_order
  have hf : kid_filter_passes (some 0) = kid_filter_passes none := by
    funext i
    simp [kid_filter_passes]
  rw [hf]

/-! ### C4: template availability gate on instance creation -/

/-- C4: `create_instance_from_template` fails with `TemplateUnavailable`
exactly when the template exists and its `available` flag is false; on
success the new instance has status doing, archived false and
`points_awarded` snapshotting the template's current `default_points`,
the template's `available` flag is flipped to false, and any further
creation against the same template fails with `TemplateUnavailable`. -/
theorem create_instance_spec (db : DB) (tid : Nat) (kid : Nat) (now : Nat) :
    (create_instance_from_template db tid kid now = .error .templateUnavailable ↔
      ∃ tmpl, db.getTemplate tid = some tmpl ∧ tmpl.available = false) ∧
    (∀ tmpl, db.getTemplate tid = some tmpl → tmpl.available = true →
      ∃ p, create_instance_from_template db tid kid now = .ok p) ∧
    (∀ tmpl db2 inst, db.getTemplate tid = some tmpl → tmpl.available = true →
      create_instance_from_template db tid kid now = .ok (db2, inst) →
        inst.status = .doing ∧
        inst.archived = false ∧
        inst.points_awarded = tmpl.default_points ∧
        inst.assigned_kid_id = kid ∧
        db2.getTemplate tid = some { tmpl with available := false } ∧
        (∀ kid2 now2, create_instance_from_template db2 tid kid2 now2 =
          .error .templateUnavailable)) := by
  refine ⟨?_, ?_, ?_⟩
  · unfold create_instance_from_template
    cases htm : db.getTemplate tid with
    | none => simp [htm]
    | some tmpl =>
      by_cases hav : tmpl.available = true
      · simp only [hav, if_true]
        constructor
        · intro hcontra
          exact absurd hcontra (by simp)
        · rintro ⟨t, ht, hf⟩
          injection ht with ht1
          subst ht1
          rw [hav] at hf
          exact absurd hf (by simp)
      · have hav2 : tmpl.available = false := by
          cases h2 : tmpl.available
          · rfl
          · exact absurd h2 hav
        simp only [hav2, Bool.false_eq_true, if_false]
        exact ⟨fun _ => ⟨tmpl, rfl, hav2⟩, fun _ => trivial⟩
  · intro tmpl htm hav
    simp only [create_instance_from_template, htm, hav, if_true]
    exact ⟨_, rfl⟩
  · intro tmpl db2 inst htm hav h2
    have hid : tmpl.id = tid := getTemplate_id db tid tmpl htm
    simp only [create_instance_from_template, htm, hav, if_true] at h2
    injection h2 with h3
    injection h3 with h4 h5
    subst h4
    subst h5
    refine ⟨rfl, rfl, rfl, rfl, ?_, ?_⟩
    · exact getTemplate_setTemplate _ tid tmpl _ htm hid
    · intro kid2 now2
      have hfound := getTemplate_setTemplate
        ({ db with
            instances := db.instances ++ [{
              id := db.next_instance_id, template_id := tmpl.id,
              assigned_kid_id := kid, points_awarded := tmpl.default_points,
              details := "", status := .doing, sort_order := 0,
              created_at := now, approved_at := none,
              archived := false : TaskInstance}]
            next_instance_id := db.next_instance_id + 1 : DB})
        tid tmpl { tmpl with available := false } htm hid
      simp [create_instance_from_template, hfound]

/-- Witness for C4 at a concrete store whose only template is disabled:
creation fails with `TemplateUnavailable`. -/
theorem create_instance_spec_witness :
    create_instance_from_template
      { dbW with templates := [{ tmplW with available := false }] } 1 8 0 =
      .error .templateUnavailable :=
  (create_instance_spec
      { dbW with templates := [{ tmplW with available := false }] } 1 8 0).1.mpr
    ⟨{ tmplW with available := false }, rfl, rfl⟩

/-! ### C1: collect is idempotent and the sole point-awarding event -/

/-- Number of task_approved ledger rows back-referencing instance `iid`. -/
def count_task_approved (db : DB) (iid : Nat) : Nat :=
  (db.ledger.filter (fun e =>
    e.reason == LedgerReason.task_approved && e.instance_id == some iid)).length

/-- C1: for an instance in status done, the first `collect_instance` call
archives it and appends exactly one ledger row for the assigned child with
amount `+points_awarded`, reason task_approved, back-referencing the
instance; a call on an already archived instance is a no-op success, so a
repeated collect appends nothing and `collect_instance` is idempotent —
the task_approved row count for the instance rises by exactly one on the
first call and never again. -/
theorem collect_spec (db : DB) (iid : Nat) (inst : TaskInstance)
    (hfind : db.getInstance iid = some inst)
    (hdone : inst.status = .done) :
    (inst.archived = false →
      collect_instance db iid =
        .ok { db.setInstance { inst with archived := true } with
                ledger := db.ledger ++ [collect_entry db inst]
                next_ledger_id := db.next_ledger_id + 1 }) ∧
    ((collect_entry db inst).kid_id = inst.assigned_kid_id ∧
     (collect_entry db inst).amount = inst.points_awarded ∧
     (collect_entry db inst).reason = .task_approved ∧
     (collect_entry db inst).instance_id = some iid) ∧
    (inst.archived = true → collect_instance db iid = .ok db) ∧
    (∀ db2, collect_instance db iid = .ok db2 →
      collect_instance db2 iid = .ok db2) ∧
    (∀ db2, inst.archived = false → collect_instance db iid = .ok db2 →
      count_task_approved db2 iid = count_task_approved db iid + 1) ∧
    (∀ db2, inst.archived = true → collect_instance db iid = .ok db2 →
      db2.ledger = db.ledger) := by
  have hid : inst.id = iid := getInstance_id db iid inst hfind
  have hfirst : inst.archived = false →
      collect_instance db iid =
        .ok { db.setInstance { inst with archived := true } with
                ledger := db.ledger ++ [collect_entry db inst]
                next_ledger_id := db.next_ledger_id + 1 } := by
    intro harch
    unfold collect_instance
    rw [hfind]
    simp [hdone, harch, DB.setInstance]
  have hnoop : inst.archived = true → collect_instance db iid = .ok db := by
    intro harch
    unfold collect_instance
    rw [hfind]
    simp [hdone, harch]
  refine ⟨hfirst, ⟨rfl, rfl, rfl, by simp [collect_entry, hid]⟩, hnoop, ?_, ?_, ?_⟩
  · intro db2 h2
    cases harch : inst.archived
    · rw [hfirst harch] at h2
      injection h2 with h3
      subst h3
      have hfind2 :
          ({ db.setInstance { inst with archived := true } with
              ledger := db.ledger ++ [collect_entry db inst]
              next_ledger_id := db.next_ledger_id + 1 : DB}).getInstance iid =
            some { inst with archived := true } :=
        getInstance_setInstance db iid inst { inst with archived := true } hfind hid
      unfold collect_instance
      rw [hfind2]
      simp [hdone]
    · rw [hnoop harch] at h2
      injection h2 with h3
      subst h3
      rw [hnoop harch]
  · intro db2 harch h2
    rw [hfirst harch] at h2
    injection h2 with h3
    subst h3
    simp [count_task_approved, DB.setInstance, List.filter_append, collect_entry, hid]
  · intro db2 harch h2
    rw [hnoop harch] at h2
    injection h2 with h3
    subst h3
    rfl

def instWdone : TaskInstance := { instW with status := .done }

def dbWdone : DB := { dbW with instances := [instWdone] }

/-- Witness for C1 at a concrete store: collecting the sample done
instance archives it and appends its task_approved ledger row. -/
theorem collect_spec_witness :
    collect_instance dbWdone 1 =
      .ok { dbWdone.setInstance { instWdone with archived := true } with
              ledger := dbWdone.ledger ++ [collect_entry dbWdone instWdone]
              next_ledger_id := dbWdone.next_ledger_id + 1 } :=
  (collect_spec dbWdone 1 instWdone rfl rfl).1 rfl

/-! ### C3: approve never touches the ledger -/

/-- C3: on an instance in review, `approve_instance` succeeds; the ledger
is untouched (hence every child's balance is unchanged), rent policies and
id counters are untouched, the instance row alone changes to status done
with `approved_at` set and `archived` reset to false, and the templates
table changes only by setting the originating template's `available` flag
to true when it was false. Template ids are assumed unique (primary key). -/
theorem approve_frame (db : DB) (iid : Nat) (inst : TaskInstance) (now : Nat)
    (hfind : db.getInstance iid = some inst)
    (hrev : inst.status = .review)
    (hnd : (db.templates.map TaskTemplate.id).Nodup) :
    (∃ db2, approve_instance db iid now = .ok db2) ∧
    (∀ db2, approve_instance db iid now = .ok db2 →
      db2.ledger = db.ledger ∧
      (∀ k, kid_balance db2 k = kid_balance db k) ∧
      db2.instances = db.instances.map (fun i =>
        if i.id == inst.id then
          { inst with status := .done, approved_at := some now, archived := false }
        else i) ∧
      db2.rent_policies = db.rent_policies ∧
      db2.next_instance_id = db.next_instance_id ∧
      db2.next_policy_id = db.next_policy_id ∧
      db2.next_ledger_id = db.next_ledger_id ∧
      db2.templates = db.templates.map (fun t =>
        if t.id = inst.template_id ∧ t.available = false
        then { t with available := true } else t)) := by
  have hinj : ∀ x ∈ db.templates, ∀ y ∈ db.templates, x.id = y.id → x = y :=
    fun x hx y hy hxy => List.inj_on_of_nodup_map hnd hx hy hxy
  cases htm : db.getTemplate inst.template_id with
  | none =>
    have heq : approve_instance db iid now =
        .ok (db.setInstance
          { inst with status := .done, approved_at := some now, archived := false }) := by
      simp [approve_instance, hfind, hrev, getTemplate_setInstance, htm]
    refine ⟨⟨_, heq⟩, ?_⟩
    intro db2 h2
    rw [heq] at h2
    injection h2 with h3
    subst h3
    refine ⟨rfl, fun k => rfl, rfl, rfl, rfl, rfl, rfl, ?_⟩
    show db.templates = db.templates.map _
    have hall : ∀ t ∈ db.templates,
        (if t.id = inst.template_id ∧ t.available = false
         then { t with available := true } else t) = t := by
      intro t ht
      have hne := List.find?_eq_none.mp htm t ht
      rw [if_neg]
      rintro ⟨h1, _⟩
      exact hne (by simp [h1])
    rw [List.map_congr_left hall]
    simp
  | some tmpl =>
    have hmemtmpl : tmpl ∈ db.templates := List.mem_of_find?_eq_some htm
    have htid : tmpl.id = inst.template_id := by
      have := List.find?_some htm
      simpa using this
    by_cases hav : tmpl.available = true
    · have heq : approve_instance db iid now =
          .ok (db.setInstance
            { inst with status := .done, approved_at := some now, archived := false }) := by
        simp [approve_instance, hfind, hrev, getTemplate_setInstance, htm, hav]
      refine ⟨⟨_, heq⟩, ?_⟩
      intro db2 h2
      rw [heq] at h2
      injection h2 with h3
      subst h3
      refine ⟨rfl, fun k => rfl, rfl, rfl, rfl, rfl, rfl, ?_⟩
      show db.templates = db.templates.map _
      have hall : ∀ t ∈ db.templates,
          (if t.id = inst.template_id ∧ t.available = false
           then { t with available := true } else t) = t := by
        intro t ht
        rw [if_neg]
        rintro ⟨h1, h2⟩
        have ht2 : t = tmpl := hinj t ht tmpl hmemtmpl (h1.trans htid.symm)
        rw [ht2] at h2
        rw [hav] at h2
        exact absurd h2 (by simp)
      rw [List.map_congr_left hall]
      simp
    · have hav2 : tmpl.available = false := by
        cases h2 : tmpl.available
        · rfl
        · exact absurd h2 hav
      have heq : approve_instance db iid now =
          .ok (DB.setTemplate
            (db.setInstance
              { inst with status := .done, approved_at := some now, archived := false })
            { tmpl with available := true }) := by
        simp [approve_instance, hfind, hrev, getTemplate_setInstance, htm, hav2]
      refine ⟨⟨_, heq⟩, ?_⟩
      intro db2 h2
      rw [heq] at h2
      injection h2 with h3
      subst h3
      refine ⟨rfl, fun k => rfl, rfl, rfl, rfl, rfl, rfl, ?_⟩
      show db.templates.map
          (fun t => if t.id == tmpl.id then { tmpl with available := true } else t) =
        db.templates.map _
      apply List.map_congr_left
      intro t ht
      by_cases hcase : t.id = tmpl.id
      · have ht2 : t = tmpl := hinj t ht tmpl hmemtmpl hcase
        rw [if_pos (show (t.id == tmpl.id) = true by simp [hcase])]
        rw [if_pos ⟨hcase.trans htid, by rw [ht2]; exact hav2⟩]
        rw [ht2]
      · rw [if_neg (show ¬ (t.id == tmpl.id) = true by simp [hcase])]
        rw [if_neg]
        rintro ⟨h1, _⟩
        exact hcase (h1.trans htid.symm)

def instWrev : TaskInstance := { instW with status := .review }

def dbWrev : DB := { dbW with instances := [instWrev] }

/-- Witness for C3 at a concrete store: approving the sample in-review
instance succeeds and leaves the ledger unchanged. -/
theorem approve_frame_witness :
    (match approve_instance dbWrev 1 5 with
     | .ok db2 => db2.ledger = dbWrev.ledger
     | .error _ => False) := by
  obtain ⟨⟨db2, heq⟩, hall⟩ := approve_frame dbWrev 1 instWrev 5 rfl rfl (by decide)
  rw [heq]
  exact (hall db2 heq).1

/-! ### C6: rent accrual -/

theorem find?_append_none {α : Type} (p : α → Bool) (l1 l2 : List α)
    (h : l1.find? p = none) : (l1 ++ l2).find? p = l2.find? p := by
  induction l1 with
  | nil => simp
  | cons x t ih =>
    have hx : p x = false := by
      cases hpx : p x
      · rfl
      · simp [List.find?, hpx] at h
    simp only [List.find?, hx] at h
    simp only [List.cons_append, List.find?, hx]
    exact ih h

/-- `ensure_rent_policy` leaves everything but the policy table and the
policy id counter unchanged. -/
theorem ensure_frame (db : DB) (kid : Nat) :
    (ensure_rent_policy db kid).1.ledger = db.ledger ∧
    (ensure_rent_policy db kid).1.instances = db.instances ∧
    (ensure_rent_policy db kid).1.templates = db.templates ∧
    (ensure_rent_policy db kid).1.next_ledger_id = db.next_ledger_id := by
  unfold ensure_rent_policy
  cases h : db.rent_policies.find? (fun rp => rp.kid_id == kid) <;>
    exact ⟨rfl, rfl, rfl, rfl⟩

/-- In the store returned by `ensure_rent_policy`, the first policy for
the child is the returned policy. -/
theorem ensure_finds (db : DB) (kid : Nat) :
    (ensure_rent_policy db kid).1.rent_policies.find? (fun x => x.kid_id == kid) =
      some (ensure_rent_policy db kid).2 := by
  unfold ensure_rent_policy
  cases h : db.rent_policies.find? (fun rp => rp.kid_id == kid) with
  | some rp => simpa using h
  | none =>
    show (db.rent_policies ++ [_]).find? (fun x : RentPolicy => x.kid_id == kid) = _
    rw [find?_append_none _ _ _ h]
    simp [List.find?]

/-- A policy whose `last_charged_on` already equals today never charges. -/
theorem charge_not_due_of_last_today (db : DB) (kid : Nat) (today : Date)
    (rp : RentPolicy)
    (h : db.rent_policies.find? (fun x => x.kid_id == kid) = some rp)
    (hl : rp.last_charged_on = some today) :
    charge_rent_if_due db kid today = (db, false) := by
  have hens : ensure_rent_policy db kid = (db, rp) := by
    unfold ensure_rent_policy
    rw [h]
  simp only [charge_rent_if_due, hens]
  by_cases hd : today.day ≠ rp.rent_day_of_month
  · rw [if_pos hd]
  · rw [if_neg hd, if_pos hl]

/-- C6: `charge_rent_if_due` first fetches-or-creates the child's rent
policy (defaults: amount 50, day-of-month 1); it returns not-charged with
the ledger unchanged when today's day-of-month differs from
`rent_day_of_month` or `last_charged_on` equals today; otherwise it
appends exactly one ledger row with amount `−|rent_amount|` and reason
rent_paid, sets `last_charged_on` to today and returns charged — and a
second call on the same day is not charged. -/
theorem charge_rent_spec (db : DB) (kid : Nat) (today : Date) :
    (db.rent_policies.find? (fun x => x.kid_id == kid) = none →
      ensure_rent_policy db kid =
        ({ db with
            rent_policies := db.rent_policies ++
              [{ id := db.next_policy_id, kid_id := kid, rent_amount := 50,
                 rent_day_of_month := 1, last_charged_on := none }]
            next_policy_id := db.next_policy_id + 1 },
         { id := db.next_policy_id, kid_id := kid, rent_amount := 50,
           rent_day_of_month := 1, last_charged_on := none })) ∧
    (∀ rp, db.rent_policies.find? (fun x => x.kid_id == kid) = some rp →
      ensure_rent_policy db kid = (db, rp)) ∧
    (today.day ≠ (ensure_rent_policy db kid).2.rent_day_of_month ∨
        (ensure_rent_policy db kid).2.last_charged_on = some today →
      charge_rent_if_due db kid today = ((ensure_rent_policy db kid).1, false)) ∧
    ((charge_rent_if_due db kid today).2 = false →
      (charge_rent_if_due db kid today).1.ledger = db.ledger) ∧
    ((rent_entry (ensure_rent_policy db kid).1 kid (ensure_rent_policy db kid).2).amount =
        -(abs (ensure_rent_policy db kid).2.rent_amount) ∧
     (rent_entry (ensure_rent_policy db kid).1 kid (ensure_rent_policy db kid).2).reason =
        .rent_paid ∧
     (rent_entry (ensure_rent_policy db kid).1 kid (ensure_rent_policy db kid).2).kid_id =
        kid) ∧
    (today.day = (ensure_rent_policy db kid).2.rent_day_of_month ∧
        (ensure_rent_policy db kid).2.last_charged_on ≠ some today →
      charge_rent_if_due db kid today =
        ({ (ensure_rent_policy db kid).1 with
            ledger := (ensure_rent_policy db kid).1.ledger ++
              [rent_entry (ensure_rent_policy db kid).1 kid (ensure_rent_policy db kid).2]
            next_ledger_id := (ensure_rent_policy db kid).1.next_ledger_id + 1
            rent_policies := (ensure_rent_policy db kid).1.rent_policies.map
              (fun q => if q.id == (ensure_rent_policy db kid).2.id
                then { (ensure_rent_policy db kid).2 with last_charged_on := some today }
                else q) }, true)) ∧
    (∀ db2, charge_rent_if_due db kid today = (db2, true) →
      db2.rent_policies.find? (fun x => x.kid_id == kid) =
        some { (ensure_rent_policy db kid).2 with last_charged_on := some today }) ∧
    (∀ db2, charge_rent_if_due db kid today = (db2, true) →
      charge_rent_if_due db2 kid today = (db2, false)) := by
  have hframe := ensure_frame db kid
  have hfinds := ensure_finds db kid
  have hkid : (ensure_rent_policy db kid).2.kid_id = kid := by
    have := List.find?_some hfinds
    simpa using this
  have h1 : db.rent_policies.find? (fun x => x.kid_id == kid) = none →
      ensure_rent_policy db kid =
        ({ db with
            rent_policies := db.rent_policies ++
              [{ id := db.next_policy_id, kid_id := kid, rent_amount := 50,
                 rent_day_of_month := 1, last_charged_on := none }]
            next_policy_id := db.next_policy_id + 1 },
         { id := db.next_policy_id, kid_id := kid, rent_amount := 50,
           rent_day_of_month := 1, last_charged_on := none }) := by
    intro h
    unfold ensure_rent_policy
    rw [h]
  have h2 : ∀ rp, db.rent_policies.find? (fun x => x.kid_id == kid) = some rp →
      ensure_rent_policy db kid = (db, rp) := by
    intro rp h
    unfold ensure_rent_policy
    rw [h]
  have h3 : today.day ≠ (ensure_rent_policy db kid).2.rent_day_of_month ∨
        (ensure_rent_policy db kid).2.last_charged_on = some today →
      charge_rent_if_due db kid today = ((ensure_rent_policy db kid).1, false) := by
    intro h
    simp only [charge_rent_if_due]
    rcases h with h | h
    · rw [if_pos h]
    · by_cases hd : today.day ≠ (ensure_rent_policy db kid).2.rent_day_of_month
      · rw [if_pos hd]
      · rw [if_neg hd, if_pos h]
  have h5 : today.day = (ensure_rent_policy db kid).2.rent_day_of_month ∧
        (ensure_rent_policy db kid).2.last_charged_on ≠ some today →
      charge_rent_if_due db kid today =
        ({ (ensure_rent_policy db kid).1 with
            ledger := (ensure_rent_policy db kid).1.ledger ++
              [rent_entry (ensure_rent_policy db kid).1 kid (ensure_rent_policy db kid).2]
            next_ledger_id := (ensure_rent_policy db kid).1.next_ledger_id + 1
            rent_policies := (ensure_rent_policy db kid).1.rent_policies.map
              (fun q => if q.id == (ensure_rent_policy db kid).2.id
                then { (ensure_rent_policy db kid).2 with last_charged_on := some today }
                else q) }, true) := by
    rintro ⟨hday, hlast⟩
    simp only [charge_rent_if_due]
    rw [if_neg (by simp [hday]), if_neg hlast]
  have h4 : (charge_rent_if_due db kid today).2 = false →
      (charge_rent_if_due db kid today).1.ledger = db.ledger := by
    intro h
    by_cases hd : today.day ≠ (ensure_rent_policy db kid).2.rent_day_of_month
    · rw [h3 (Or.inl hd)]
      exact hframe.1
    · by_cases hl : (ensure_rent_policy db kid).2.last_charged_on = some today
      · rw [h3 (Or.inr hl)]
        exact hframe.1
      · rw [h5 ⟨not_not.mp hd, hl⟩] at h
        simp at h
  have h5b : ∀ db2, charge_rent_if_due db kid today = (db2, true) →
      db2.rent_policies.find? (fun x => x.kid_id == kid) =
        some { (ensure_rent_policy db kid).2 with last_charged_on := some today } := by
    intro db2 h
    by_cases hd : today.day ≠ (ensure_rent_policy db kid).2.rent_day_of_month
    · rw [h3 (Or.inl hd)] at h
      simp at h
    · by_cases hl : (ensure_rent_policy db kid).2.last_charged_on = some today
      · rw [h3 (Or.inr hl)] at h
        simp at h
      · rw [h5 ⟨not_not.mp hd, hl⟩] at h
        injection h with ha _
        have hfind2 := find?_update_generic RentPolicy.kid_id RentPolicy.id kid
          (ensure_rent_policy db kid).2.id
          (ensure_rent_policy db kid).1.rent_policies
          (ensure_rent_policy db kid).2
          { (ensure_rent_policy db kid).2 with last_charged_on := some today }
          hfinds rfl hkid
        rw [← ha]
        exact hfind2
  have h6 : ∀ db2, charge_rent_if_due db kid today = (db2, true) →
      charge_rent_if_due db2 kid today = (db2, false) := by
    intro db2 h
    exact charge_not_due_of_last_today db2 kid today _ (h5b db2 h) rfl
  exact ⟨h1, h2, h3, h4, ⟨rfl, rfl, rfl⟩, h5, h5b, h6⟩

/-- Witness for C6 at a concrete store with no policy yet: on a day that
is not the default rent day, the call reports not-charged and only lazily
creates the default policy. -/
theorem charge_rent_spec_witness :
    charge_rent_if_due dbW 7 { year := 2026, month := 1, day := 15 } =
      ((ensure_rent_policy dbW 7).1, false) :=
  (charge_rent_spec dbW 7 { year := 2026, month := 1, day := 15 }).2.2.1
    (Or.inl (by decide))

/-! ### C7: sort_order of created instances -/

def tmplW2 : TaskTemplate :=
  { id := 2, title := "Feed the pet", default_points := 8, help_text := "",
    available := true, sort_order := 20, created_at := 0 }

def dbC7 : DB :=
  { templates := [tmplW, tmplW2], instances := [], ledger := [],
    rent_policies := [], next_instance_id := 1, next_policy_id := 1,
    next_ledger_id := 1 }

def c7_db1 : DB :=
  match create_instance_from_template dbC7 1 7 0 with
  | .ok p => p.1
  | .error _ => dbC7

def c7_i1 : TaskInstance :=
  match create_instance_from_template dbC7 1 7 0 with
  | .ok p => p.2
  | .error _ => instW

def c7_db2 : DB :=
  match create_instance_from_template c7_db1 2 7 1 with
  | .ok p => p.1
  | .error _ => c7_db1

def c7_i2 : TaskInstance :=
  match create_instance_from_template c7_db1 2 7 1 with
  | .ok p => p.2
  | .error _ => instW

/-- C7 counterexample: two instances created in sequence from two
available templates get sort_order 0 and 0 — the later one's sort_order
is NOT greater than the earlier one's, because the code never sets
`sort_order` at creation and the column default is 0, not the insertion
order. -/
theorem create_sort_order_counterexample :
    create_instance_from_template dbC7 1 7 0 = .ok (c7_db1, c7_i1) ∧
    create_instance_from_template c7_db1 2 7 1 = .ok (c7_db2, c7_i2) ∧
    ¬ (c7_i1.sort_order < c7_i2.sort_order) :=
  ⟨rfl, rfl, by decide⟩

/-- C7 (amended): every instance created by `create_instance_from_template`
gets the model's column default sort_order 0 (so two instances created in
sequence have equal sort_order, not increasing ones); insertion order is
reflected only in the assigned auto-increment id. -/
theorem create_sort_order_amended (db : DB) (tid : Nat) (kid : Nat) (now : Nat)
    (db2 : DB) (inst : TaskInstance)
    (h : create_instance_from_template db tid kid now = .ok (db2, inst)) :
    inst.sort_order = 0 ∧ inst.id = db.next_instance_id ∧
    db2.next_instance_id = db.next_instance_id + 1 := by
  cases htm : db.getTemplate tid with
  | none => simp [create_instance_from_template, htm] at h
  | some tmpl =>
    by_cases hav : tmpl.available = true
    · simp only [create_instance_from_template, htm, hav, if_true] at h
      injection h with h3
      injection h3 with h4 h5
      subst h4
      subst h5
      exact ⟨rfl, rfl, rfl⟩
    · have hav2 : tmpl.available = false := by
        cases hb : tmpl.available
        · rfl
        · exact absurd hb hav
      simp [create_instance_from_template, htm, hav2] at h

/-- Witness for the amended C7 at a concrete store. -/
theorem create_sort_order_amended_witness :
    c7_i1.sort_order = 0 ∧ c7_i1.id = dbC7.next_instance_id ∧
    c7_db1.next_instance_id = dbC7.next_instance_id + 1 :=
  create_sort_order_amended dbC7 1 7 0 c7_db1 c7_i1 rfl

/-! ### C9: set_column_order assigns positional indices -/

theorem assigned_idx_not_mem (ids : List Nat) (iid : Nat) (h : iid ∉ ids) :
    assigned_idx ids iid = none := by
  induction ids with
  | nil => rfl
  | cons x t ih =>
    have hx : ¬ x = iid := fun he => h (by rw [← he]; exact List.mem_cons_self x t)
    have ht : iid ∉ t := fun hm => h (List.mem_cons_of_mem _ hm)
    simp [assigned_idx, ih ht, hx]

theorem assigned_idx_nodup (ids : List Nat) (iid : Nat)
    (hnd : ids.Nodup) (hmem : iid ∈ ids) :
    assigned_idx ids iid = some (ids.indexOf iid) := by
  induction ids with
  | nil => cases hmem
  | cons x t ih =>
    rcases List.mem_cons.mp hmem with he | hm
    · subst he
      have hxt : iid ∉ t := (List.nodup_cons.mp hnd).1
      simp [assigned_idx, assigned_idx_not_mem t iid hxt, List.indexOf_cons_self]
    · have hxt : x ∉ t := (List.nodup_cons.mp hnd).1
      have hx : x ≠ iid := fun he => hxt (he ▸ hm)
      rw [List.indexOf_cons_ne t hx]
      simp [assigned_idx, ih (List.nodup_cons.mp hnd).2 hm]

/-- C9: with pairwise-distinct ids, `set_column_order` on a nonempty id
list rewrites exactly the stored instances matching the status and the
child filter whose id occurs in the list, setting their sort_order to the
id's position in the list; all other instances and every other table are
untouched, and an empty id list is a no-op. -/
theorem set_column_order_spec (db : DB) (st : InstanceStatus)
    (ids : List Nat) (filt : Option Nat)
    (hnd : ids.Nodup) :
    set_column_order db st [] filt = db ∧
    (set_column_order db st ids filt).templates = db.templates ∧
    (set_column_order db st ids filt).ledger = db.ledger ∧
    (set_column_order db st ids filt).rent_policies = db.rent_policies ∧
    (set_column_order db st ids filt).instances = db.instances.map (fun inst =>
      if inst.status = st ∧ kid_filter_passes filt inst = true ∧ inst.id ∈ ids
      then { inst with sort_order := (ids.indexOf inst.id : Int) }
      else inst) := by
  by_cases he : ids.isEmpty = true
  · have he2 : ids = [] := List.isEmpty_iff.mp he
    subst he2
    refine ⟨rfl, rfl, rfl, rfl, ?_⟩
    have hall : ∀ i ∈ db.instances,
        (if i.status = st ∧ kid_filter_passes filt i = true ∧ i.id ∈ ([] : List Nat)
         then { i with sort_order := ((([] : List Nat).indexOf i.id : Nat) : Int) }
         else i) = i := by
      intro i _
      rw [if_neg]
      rintro ⟨_, _, h3⟩
      cases h3
    show (set_column_order db st [] filt).instances = _
    rw [List.map_congr_left hall]
    simp [set_column_order]
  · have he2 : ids.isEmpty = false := by
      cases hb : ids.isEmpty
      · rfl
      · exact absurd hb he
    refine ⟨rfl, ?_, ?_, ?_, ?_⟩
    · simp [set_column_order, he2]
    · simp [set_column_order, he2]
    · simp [set_column_order, he2]
    · simp only [set_column_order, he2, Bool.false_eq_true, if_false]
      apply List.map_congr_left
      intro inst _
      by_cases hc : inst.status = st ∧ kid_filter_passes filt inst = true
      · rw [if_pos hc]
        by_cases hm : inst.id ∈ ids
        · rw [assigned_idx_nodup ids inst.id hnd hm]
          rw [if_pos ⟨hc.1, hc.2, hm⟩]
        · rw [assigned_idx_not_mem ids inst.id hm]
          rw [if_neg (fun hh => hm hh.2.2)]
      · rw [if_neg hc, if_neg (fun hh => hc ⟨hh.1, hh.2.1⟩)]

/-- Witness for C9 at a concrete store and a singleton id list. -/
theorem set_column_order_spec_witness :
    (set_column_order dbW .doing [1] none).instances =
      dbW.instances.map (fun inst =>
        if inst.status = .doing ∧ kid_filter_passes none inst = true ∧
            inst.id ∈ ([1] : List Nat)
        then { inst with sort_order := ((([1] : List Nat).indexOf inst.id : Nat) : Int) }
        else inst) :=
  (set_column_order_spec dbW .doing [1] none (by decide)).2.2.2.2

/-! ### C5: the archived-implies-done invariant -/

/-- The spec invariant: an archived instance is always in status done. -/
def ArchivedImpDone (db : DB) : Prop :=
  ∀ inst ∈ db.instances, inst.archived = true → inst.status = InstanceStatus.done

/-- One invocation of the engine, with the injected clock made explicit. -/
inductive Op where
  | createInstance (template_id : Nat) (kid_id : Nat) (now : Nat)
  | moveInstance (instance_id : Nat) (new_status : InstanceStatus)
  | updateDetails (instance_id : Nat) (text : String)
  | approve (instance_id : Nat) (now : Nat)
  | reject (instance_id : Nat)
  | collect (instance_id : Nat)
  | refreshPool
  | chargeRent (kid_id : Nat) (today : Date)
  | setColumnOrder (status : InstanceStatus) (ids : List Nat) (filt : Option Nat)

/-- Run one operation; a failing operation rolls back (the surrounding
transaction leaves the store unchanged). -/
def applyOp (db : DB) (op : Op) : DB :=
  match op with
  | .createInstance t k n =>
    match create_instance_from_template db t k n with
    | .ok p => p.1
    | .error _ => db
  | .moveInstance i s =>
    match move_instance db i s with
    | .ok d => d
    | .error _ => db
  | .updateDetails i s =>
    match update_instance_details db i s with
    | .ok d => d
    | .error _ => db
  | .approve i n =>
    match approve_instance db i n with
    | .ok d => d
    | .error _ => db
  | .reject i =>
    match reject_instance db i with
    | .ok d => d
    | .error _ => db
  | .collect i =>
    match collect_instance db i with
    | .ok d => d
    | .error _ => db
  | .refreshPool => refresh_pool db
  | .chargeRent k d => (charge_rent_if_due db k d).1
  | .setColumnOrder s ids f => set_column_order db s ids f

theorem archivedImpDone_of_instances_eq (db db2 : DB) (h : ArchivedImpDone db)
    (he : db2.instances = db.instances) : ArchivedImpDone db2 :=
  fun i hi ha => h i (he ▸ hi) ha

theorem archivedImpDone_setInstance (db : DB) (inst : TaskInstance)
    (hdb : ArchivedImpDone db)
    (hinst : inst.archived = true → inst.status = .done) :
    ArchivedImpDone (db.setInstance inst) := by
  intro i hi ha
  rw [show (db.setInstance inst).instances =
        db.instances.map (fun j => if j.id == inst.id then inst else j) from rfl,
      List.mem_map] at hi
  obtain ⟨j, hj, hij⟩ := hi
  by_cases hc : (j.id == inst.id) = true
  · rw [if_pos hc] at hij
    subst hij
    exact hinst ha
  · rw [if_neg hc] at hij
    subst hij
    exact hdb j hj ha

theorem charge_rent_instances (db : DB) (kid : Nat) (today : Date) :
    (charge_rent_if_due db kid today).1.instances = db.instances := by
  have he := (ensure_frame db kid).2.1
  simp only [charge_rent_if_due]
  by_cases hd : today.day ≠ (ensure_rent_policy db kid).2.rent_day_of_month
  · rw [if_pos hd]
    exact he
  · rw [if_neg hd]
    by_cases hl : (ensure_rent_policy db kid).2.last_charged_on = some today
    · rw [if_pos hl]
      exact he
    · rw [if_neg hl]
      exact he

theorem applyOp_preserves (db : DB) (op : Op) (h : ArchivedImpDone db) :
    ArchivedImpDone (applyOp db op) := by
  cases op with
  | createInstance t k n =>
    unfold applyOp
    cases htm : db.getTemplate t with
    | none => simpa [create_instance_from_template, htm] using h
    | some tmpl =>
      by_cases hav : tmpl.available = true
      · simp only [create_instance_from_template, htm, hav, if_true]
        intro i hi ha
        rw [show (DB.setTemplate
              { db with
                  instances := db.instances ++ [{
                    id := db.next_instance_id, template_id := tmpl.id,
                    assigned_kid_id := k, points_awarded := tmpl.default_points,
                    details := "", status := .doing, sort_order := 0,
                    created_at := n, approved_at := none,
                    archived := false : TaskInstance}]
                  next_instance_id := db.next_instance_id + 1 }
              { tmpl with available := false }).instances =
            db.instances ++ [{
              id := db.next_instance_id, template_id := tmpl.id,
              assigned_kid_id := k, points_awarded := tmpl.default_points,
              details := "", status := .doing, sort_order := 0,
              created_at := n, approved_at := none,
              archived := false : TaskInstance}] from rfl,
          List.mem_append] at hi
        rcases hi with hi | hi
        · exact h i hi ha
        · rw [List.mem_singleton] at hi
          subst hi
          exact absurd ha (by simp)
      · have hav2 : tmpl.available = false := by
          cases hb : tmpl.available
          · rfl
          · exact absurd hb hav
        simpa [create_instance_from_template, htm, hav2] using h
  | moveInstance i s =>
    unfold applyOp
    cases hf : db.getInstance i with
    | none => simpa [move_instance, hf] using h
    | some inst =>
      by_cases hmem : s ∈ allowed_moves inst.status
      · simp only [move_instance, hf, hmem, if_true]
        apply archivedImpDone_setInstance db _ h
        intro ha
        have hdone : inst.status = .done :=
          h inst (List.mem_of_find?_eq_some hf) ha
        rw [hdone] at hmem
        simp [allowed_moves] at hmem
      · simpa [move_instance, hf, hmem] using h
  | updateDetails i s =>
    unfold applyOp
    cases hf : db.getInstance i with
    | none => simpa [update_instance_details, hf] using h
    | some inst =>
      by_cases hst : inst.status = .done
      · simpa [update_instance_details, hf, hst] using h
      · simp only [update_instance_details, hf, hst, if_false]
        apply archivedImpDone_setInstance db _ h
        intro ha
        exact h inst (List.mem_of_find?_eq_some hf) ha
  | approve i n =>
    unfold applyOp
    cases hf : db.getInstance i with
    | none => simpa [approve_instance, hf] using h
    | some inst =>
      by_cases hst : inst.status = .review
      · have hbase : ArchivedImpDone (db.setInstance
            { inst with status := .done, approved_at := some n, archived := false }) :=
          archivedImpDone_setInstance db _ h (fun _ => rfl)
        simp only [approve_instance, hf, hst, if_true]
        cases htm : db.getTemplate inst.template_id with
        | none => simpa [getTemplate_setInstance, htm] using hbase
        | some tmpl =>
          by_cases hav : tmpl.available = true
          · simpa [getTemplate_setInstance, htm, hav] using hbase
          · have hav2 : tmpl.available = false := by
              cases hb : tmpl.available
              · rfl
              · exact absurd hb hav
            simp only [getTemplate_setInstance, htm, hav2, Bool.false_eq_true, if_false]
            exact archivedImpDone_of_instances_eq _ _ hbase rfl
      · simpa [approve_instance, hf, hst] using h
  | reject i =>
    unfold applyOp
    cases hf : db.getInstance i with
    | none => simpa [reject_instance, hf] using h
    | some inst =>
      by_cases hst : inst.status = .review
      · simp only [reject_instance, hf, hst, if_true]
        apply archivedImpDone_setInstance db _ h
        intro ha
        have hdone : inst.status = .done :=
          h inst (List.mem_of_find?_eq_some hf) ha
        rw [hdone] at hst
        exact absurd hst (by simp)
      · simpa [reject_instance, hf, hst] using h
  | collect i =>
    unfold applyOp
    cases hf : db.getInstance i with
    | none => simpa [collect_instance, hf] using h
    | some inst =>
      by_cases hst : inst.status = .done
      · by_cases harch : inst.archived = true
        · simpa [collect_instance, hf, hst, harch] using h
        · have harch2 : inst.archived = false := by
            cases hb : inst.archived
            · rfl
            · exact absurd hb harch
          simp only [collect_instance, hf, hst, harch2, Bool.false_eq_true,
            if_false, if_true]
          have hbase : ArchivedImpDone
              (db.setInstance { inst with status := .done, archived := true }) :=
            archivedImpDone_setInstance db _ h (fun _ => rfl)
          exact archivedImpDone_of_instances_eq _ _ hbase rfl
      · simpa [collect_instance, hf, hst] using h
  | refreshPool =>
    exact archivedImpDone_of_instances_eq _ _ h rfl
  | chargeRent k d =>
    exact archivedImpDone_of_instances_eq _ _ h (charge_rent_instances db k d)
  | setColumnOrder s ids f =>
    unfold applyOp
    by_cases he : ids.isEmpty = true
    · simpa [set_column_order, he] using h
    · have he2 : ids.isEmpty = false := by
        cases hb : ids.isEmpty
        · rfl
        · exact absurd hb he
      intro i hi ha
      simp only [set_column_order, he2, Bool.false_eq_true, if_false] at hi
      rw [List.mem_map] at hi
      obtain ⟨j, hj, hij⟩ := hi
      by_cases hc : j.status = s ∧ kid_filter_passes f j = true
      · rw [if_pos hc] at hij
        cases hax : assigned_idx ids j.id with
        | some idx =>
          rw [hax] at hij
          subst hij
          exact h j hj ha
        | none =>
          rw [hax] at hij
          subst hij
          exact h j hj ha
      · rw [if_neg hc] at hij
        subst hij
        exact h j hj ha

/-- C5: the invariant "archived implies status done" is preserved by every
engine operation and hence holds after any sequence of operations
(creation and approval write archived = false, collect archives only
instances already in done, and no operation leaves done). -/
theorem archived_implies_done_invariant (db : DB) (ops : List Op)
    (h : ArchivedImpDone db) :
    ArchivedImpDone (ops.foldl applyOp db) := by
  induction ops generalizing db with
  | nil => exact h
  | cons op t ih => exact ih (applyOp db op) (applyOp_preserves db op h)

/-- Witness for C5: a full lifecycle (create, move to review, approve,
collect) run from a store with no instances keeps the invariant. -/
theorem archived_implies_done_invariant_witness :
    ArchivedImpDone
      (([Op.createInstance 1 7 0, Op.moveInstance 1 .review,
         Op.approve 1 3, Op.collect 1]).foldl applyOp
        { dbW with instances := [] }) :=
  archived_implies_done_invariant { dbW with instances := [] } _
    (fun i hi => absurd hi (List.not_mem_nil i))

end TaskEngine
